import Mathlib

/-!
Shallow embedding of the request-scoped aggregation layer, the question
cache and the scoring functions of the `llm` backend
(`internal/service/chat_service.go`, `internal/service/game_service.go`,
`internal/util/constants.go`, `internal/models/models.go`).

Conventions of the embedding:
* Go `float32` values (scores, weights) are modelled as exact rationals `ℚ`.
* `time.Time` values are modelled as `ℤ` (milliseconds on an abstract
  timeline); `time.Since(ts)` is `now - ts`; `a.After(b)` is `b < a`.
* Go `(value, err)` pairs are modelled as structures with an `err : Option
  String` field (matching the fetch-result structs of `chat_service.go`),
  or as `Except String α` for plain fallible calls.
* The Go `map[string]*models.StoredQuestion` question cache is modelled as
  `String → Option StoredQuestion`; `getCachedQuestion` is written in
  state-passing style (returning the - unchanged - table) so that its
  frame behaviour is expressible.
* External collaborators (RAG client, OpenAI completion service) enter the
  embedding as outcome parameters inside an environment structure; the
  orchestrators additionally return a trace of the completion-provider
  call they made (if any), so that "no LLM call is made" is expressible.
-/

namespace Llm

/-! ## Data model (`internal/models/models.go`) -/

/-- `models.RAGMessage`. -/
structure RAGMessage where
  role : String
  content : String
deriving DecidableEq

/-- `models.RAGConversationSearchResult` (score is `float32`, modelled as `ℚ`;
timestamp in milliseconds). -/
structure RAGConversationSearchResult where
  conversationID : String
  score : ℚ
  timestamp : ℤ
  messages : List RAGMessage
deriving DecidableEq

/-- `models.ChatRequest`. -/
structure ChatRequest where
  message : String
  userID : String
deriving DecidableEq

/-- `models.ContextUsage`. -/
structure ContextUsage where
  totalConversations : ℕ
  topScore : ℚ
deriving DecidableEq

/-- `models.ChatResponse` (`CreatedAt` as abstract time). -/
structure ChatResponse where
  conversationID : String
  message : String
  response : String
  contextUsed : ContextUsage
  createdAt : ℤ
deriving DecidableEq

/-- `models.PersonalInfoResponse`. -/
structure PersonalInfoResponse where
  id : String
  userID : String
  content : String
  category : String
  importance : String
deriving DecidableEq

/-- `models.PersonalInfoListResponse`. -/
structure PersonalInfoListResponse where
  items : List PersonalInfoResponse
  total : ℤ
  userID : String
deriving DecidableEq

/-- `models.QuizOption`. -/
structure QuizOption where
  id : String
  text : String
deriving DecidableEq

/-- `models.QuizInfo`. -/
structure QuizInfo where
  quizID : String
  questionType : String
  question : String
  options : List QuizOption
  difficulty : String
  topic : String
  basedOnConversation : String
  category : String
  hint : String
deriving DecidableEq

/-- `models.IncorrectQuizAttempt`. -/
structure IncorrectQuizAttempt where
  correct : Bool
  attemptID : ℤ
  attemptOrder : ℤ
  quiz : QuizInfo
  userAnswer : String
  correctAnswer : String
  isCorrect : Bool
  score : ℤ
  attemptTime : String
deriving DecidableEq

/-- `models.IncorrectQuizAttemptsResponse`. -/
structure IncorrectQuizAttemptsResponse where
  items : List IncorrectQuizAttempt
  total : ℤ
  userID : String
deriving DecidableEq

/-- `models.GameQuestionRequest`. -/
structure GameQuestionRequest where
  userID : String
  questionType : String
  difficultyHint : String
deriving DecidableEq

/-- `models.QuestionOption`. -/
structure QuestionOption where
  id : String
  text : String
deriving DecidableEq

/-- `models.QuestionMetadata`. -/
structure QuestionMetadata where
  topic : String
  memoryScore : ℚ
  daysSinceConversation : ℤ
deriving DecidableEq

/-- `models.FillInTheBlankQuestionResponse`.  The `acceptableAnswers` field
appears in the first revision of `game_service.go` (which constructs it); the
current `models.go` revision replaced it by `options`.  Both are carried so
that the first-revision constructor can be embedded faithfully. -/
structure FillInTheBlankQuestionResponse where
  questionID : String
  questionType : String
  question : String
  options : List QuestionOption
  correctAnswer : String
  acceptableAnswers : List String
  basedOnConversation : String
  difficulty : String
  metadata : QuestionMetadata
deriving DecidableEq

/-- `models.MultipleChoiceQuestionResponse`. -/
structure MultipleChoiceQuestionResponse where
  questionID : String
  questionType : String
  question : String
  options : List QuestionOption
  correctAnswer : String
  basedOnConversation : String
  difficulty : String
  metadata : QuestionMetadata
deriving DecidableEq

/-- `models.StoredQuestion` (times as abstract `ℤ` milliseconds). -/
structure StoredQuestion where
  questionID : String
  userID : String
  questionType : String
  question : String
  correctAnswer : String
  basedOnConversation : String
  difficulty : String
  topic : String
  generatedAt : ℤ
  expiresAt : ℤ
deriving DecidableEq

/-- `models.GameResultRequest` (`ResponseTimeMs : int64` as `ℤ`; note that
the binding tags require only `user_id`, `question_id`, `user_answer`, so
`ResponseTimeMs` is unconstrained). -/
structure GameResultRequest where
  userID : String
  questionID : String
  userAnswer : String
  isCorrect : Bool
  responseTimeMs : ℤ
  gameSessionID : String
deriving DecidableEq

/-- `models.MemoryEvaluation`. -/
structure MemoryEvaluation where
  topic : String
  retentionScore : ℚ
  confidence : String
  recommendation : String
deriving DecidableEq

/-- `models.NextQuestionSuggestion`. -/
structure NextQuestionSuggestion where
  difficulty : String
  topicPreference : String
deriving DecidableEq

/-- `models.GameResultResponse`. -/
structure GameResultResponse where
  resultID : String
  memoryEvaluation : MemoryEvaluation
  nextQuestionSuggestion : NextQuestionSuggestion
  storedAt : ℤ
deriving DecidableEq

/-! ## Constants (`internal/util/constants.go`) -/

/-- `util.ResponseTimeThreshold` (milliseconds). -/
def ResponseTimeThreshold : ℤ := 5000

/-- One day in milliseconds (`24 * time.Hour`);
`time.Since(ts).Hours()/24 < 1` is `now - ts < msPerDay` in exact
arithmetic. -/
def msPerDay : ℤ := 86400000

/-! ## Question cache (`game_service.go`: `questionCache` +
`cacheQuestion` / `getCachedQuestion` / `cleanupCacheRoutine`)

The Go table is `map[string]*models.StoredQuestion` guarded by
`cacheMutex sync.RWMutex`; it is modelled as a total function into
`Option`. -/

/-- The question-cache table. -/
def Cache : Type := String → Option StoredQuestion

/-- The empty table (`make(map[string]*models.StoredQuestion)`). -/
def emptyCache : Cache := fun _ => none

/-- Go map assignment `gs.questionCache[qID] = q` (last write wins). -/
def cacheInsert (c : Cache) (k : String) (v : StoredQuestion) : Cache :=
  fun k' => if k' = k then some v else c k'

/-- The dynamic `interface{}` payload handed to `cacheQuestion`; the Go code
type-switches over the two concrete question-response types and ignores
anything else. -/
inductive QuestionPayload where
  | fillInBlank (q : FillInTheBlankQuestionResponse)
  | multipleChoice (q : MultipleChoiceQuestionResponse)
  | otherPayload
deriving DecidableEq

/-- The question ID extracted by the type switch in `cacheQuestion`
(`none` for the `default` branch). -/
def payloadQuestionID : QuestionPayload → Option String
  | .fillInBlank q => some q.questionID
  | .multipleChoice q => some q.questionID
  | .otherPayload => none

/-- `GameService.cacheQuestion` (first revision, lines 318-337): stores
`StoredQuestion{QuestionID: qID, ExpiresAt: time.Now().Add(gs.cfg.QuestionCacheTTL)}`
(all other fields left at their zero values) under key `qID`; the `default`
branch of the type switch returns without touching the table. -/
def cacheQuestion (c : Cache) (now ttl : ℤ) (q : QuestionPayload) : Cache :=
  match payloadQuestionID q with
  | none => c
  | some qID =>
      cacheInsert c qID
        { questionID := qID
          userID := ""
          questionType := ""
          question := ""
          correctAnswer := ""
          basedOnConversation := ""
          difficulty := ""
          topic := ""
          generatedAt := 0
          expiresAt := now + ttl }

/-- `GameService.getCachedQuestion` (lines 339-348 and identically 691-700):
under a read lock, `if !exists || time.Now().After(q.ExpiresAt) { return nil }`.
`time.Now().After(e)` is `e < now` (strict).  Written in state-passing style:
the first component is the table after the call - the function only reads,
so it is returned as-is. -/
def getCachedQuestion (c : Cache) (now : ℤ) (qID : String) :
    Cache × Option StoredQuestion :=
  match c qID with
  | none => (c, none)
  | some q => if q.expiresAt < now then (c, none) else (c, some q)

/-- One scan of `GameService.cleanupCacheRoutine` (lines 350-364 and
identically 730-744): under a write lock, `delete` every entry with
`now.After(q.ExpiresAt)`, i.e. `q.ExpiresAt < now`.  (The routine itself
loops on a one-minute ticker; a single pass is embedded.) -/
def cleanupCachePass (c : Cache) (now : ℤ) : Cache :=
  fun qID =>
    match c qID with
    | none => none
    | some q => if q.expiresAt < now then none else some q

/-! ## Scoring (`game_service.go` helper functions) -/

/-- The response-time component of `calculateRetentionScore` (lines 270-277):
`1.0` at `0` ms, linearly decaying, and `0.0` for times above the threshold:
`if req.ResponseTimeMs > 5000 { timeScore = 0.0 } else
 { timeScore = float32(float64(5000-req.ResponseTimeMs) / 5000.0) }`.
Factored out of `calculateRetentionScore` so the component can be named. -/
def timeScore (responseTimeMs : ℤ) : ℚ :=
  if ResponseTimeThreshold < responseTimeMs then 0
  else ((ResponseTimeThreshold - responseTimeMs : ℤ) : ℚ) / (ResponseTimeThreshold : ℚ)

/-- `GameService.calculateRetentionScore` (lines 261-284): weighted sum of
the correctness flag, the time score and a constant recency score of `1.0`,
with the configured weight triple `gs.cfg.MemoryEvaluationWeights`
(`weights[0]`, `weights[1]`, `weights[2]` modelled as the components of a
triple). -/
def calculateRetentionScore (weights : ℚ × ℚ × ℚ) (req : GameResultRequest) : ℚ :=
  let correctScore : ℚ := if req.isCorrect then 1 else 0
  let tScore : ℚ := timeScore req.responseTimeMs
  let recencyScore : ℚ := 1
  weights.1 * correctScore + weights.2.1 * tScore + weights.2.2 * recencyScore

/-- `GameService.determineConfidence` (lines 286-294). -/
def determineConfidence (score : ℚ) : String :=
  if 0.8 ≤ score then "high"
  else if 0.5 ≤ score then "medium"
  else "low"

/-- `GameService.getRecommendation` (lines 296-306; the `confidence`
argument is accepted but unused, as in the source). -/
def getRecommendation (score : ℚ) (_confidence : String) : String :=
  if 0.9 ≤ score then "이 주제는 매우 잘 기억하고 있습니다."
  else if 0.7 ≤ score then "이 주제는 비교적 잘 기억하고 있습니다."
  else if 0.5 ≤ score then "이 주제는 부분적으로 기억하고 있습니다. 복습을 권장합니다."
  else "이 주제는 잘 기억하지 못하고 있습니다. 자주 복습해주세요."

/-- `GameService.suggestNextDifficulty` (lines 308-316). -/
def suggestNextDifficulty (score : ℚ) : String :=
  if 0.8 ≤ score then "hard"
  else if 0.5 ≤ score then "medium"
  else "easy"

/-- The count of search results younger than one day, as computed by the
loop in `determineDifficulty`: `time.Since(result.Timestamp).Hours()/24 < 1`. -/
def recentCount (now : ℤ) (searchResults : List RAGConversationSearchResult) : ℕ :=
  searchResults.countP (fun r => decide (now - r.timestamp < msPerDay))

/-- `GameService.determineDifficulty` (lines 153-178; the second revision at
550-572 is logically identical): an explicit hint in `{easy, medium, hard}`
wins; an empty result list gives `easy`; otherwise the difficulty is driven
by the number of results younger than one day (`>` on Go integer division
`len(searchResults)/2`). -/
def determineDifficulty (hint : String)
    (searchResults : List RAGConversationSearchResult) (now : ℤ) : String :=
  if hint ≠ "" ∧ (hint = "easy" ∨ hint = "medium" ∨ hint = "hard") then hint
  else if searchResults.length = 0 then "easy"
  else
    let rc := recentCount now searchResults
    if searchResults.length / 2 < rc then "easy"
    else if 0 < rc then "medium"
    else "hard"

/-! ## Chat orchestrator (`internal/service/chat_service.go`) -/

/-- The `searchResult` struct of `chat_service.go` (result of
`fetchConversations`; the goroutine writes both the converted results and
the error of `ragClient.SearchConversations`). -/
structure searchResult where
  results : List RAGConversationSearchResult
  err : Option String
deriving DecidableEq

/-- The `profileResult` struct of `chat_service.go` (result of
`fetchUserProfile`; pointer and error are independently nullable). -/
structure profileResult where
  profile : Option PersonalInfoListResponse
  err : Option String
deriving DecidableEq

/-- The `incorrectAttemptsResult` struct of `chat_service.go`. -/
structure incorrectAttemptsResult where
  attempts : Option IncorrectQuizAttemptsResponse
  err : Option String
deriving DecidableEq

/-- The argument tuple of the one completion-provider call made by
`ProcessChat`: `openaiService.GenerateChatResponseWithProfile(ctx,
req.Message, contextMessages, profileInfo, incorrectAttempts)`. -/
structure ChatLLMCall where
  userMessage : String
  contextMessages : List String
  profileInfo : Option PersonalInfoListResponse
  incorrectAttempts : Option IncorrectQuizAttemptsResponse
deriving DecidableEq

/-- Environment of a single `ProcessChat` run: outcomes of the three
upstream fetches and the completion provider, plus the generated
conversation UUID and the wall clock. -/
structure ChatEnv where
  search : searchResult
  profile : profileResult
  attempts : incorrectAttemptsResult
  generateChatResponseWithProfile : ChatLLMCall → Except String String
  newUUID : String
  now : ℤ

/-- `ChatService.extractContextMessages` (lines 163-176): collect the
contents of `user`/`assistant` messages across all results, in order.
(The source iterates over pointers produced by `convertToPointers`, which
are never nil, so the nil guard is vacuous and the list is modelled by
value.) -/
def extractContextMessages : List RAGConversationSearchResult → List String
  | [] => []
  | r :: rest =>
      ((r.messages.filter fun m => m.role == "user" || m.role == "assistant").map
        (fun m => m.content)) ++ extractContextMessages rest

/-- `ChatService.extractMaxScore` (lines 178-186): running maximum with a
strict comparison, starting from `0`. -/
def extractMaxScore (results : List RAGConversationSearchResult) : ℚ :=
  results.foldl (fun maxScore r => if maxScore < r.score then r.score else maxScore) 0

/-- `ChatService.ProcessChat` (lines 35-96).  The three fetches run on
their own goroutines but are each awaited immediately, so their outcomes
are exactly the environment fields.  Returns the Go `(response, error)`
pair as an `Except`, together with a trace of the completion-provider call
(`none` when `GenerateChatResponseWithProfile` was never invoked).  The
fire-and-forget `evaluateAndSave` goroutine runs after the response value
is fully determined and does not affect it, so it is not part of the
returned value. -/
def ProcessChat (env : ChatEnv) (req : ChatRequest) :
    Except String ChatResponse × Option ChatLLMCall :=
  let searchRes := env.search
  let profileRes := env.profile
  let incorrectAttemptsRes := env.attempts
  match searchRes.err with
  | some e => (Except.error ("failed to search conversations: " ++ e), none)
  | none =>
      let contextMessages := extractContextMessages searchRes.results
      let maxScore := extractMaxScore searchRes.results
      -- `if profileRes.err == nil && profileRes.profile != nil`
      let profileInfo : Option PersonalInfoListResponse :=
        if profileRes.err = none then profileRes.profile else none
      -- `if incorrectAttemptsRes.err == nil && incorrectAttemptsRes.attempts != nil`
      let incorrectAttempts : Option IncorrectQuizAttemptsResponse :=
        if incorrectAttemptsRes.err = none then incorrectAttemptsRes.attempts else none
      let call : ChatLLMCall :=
        { userMessage := req.message
          contextMessages := contextMessages
          profileInfo := profileInfo
          incorrectAttempts := incorrectAttempts }
      match env.generateChatResponseWithProfile call with
      | Except.error e => (Except.error ("failed to generate response: " ++ e), some call)
      | Except.ok response =>
          (Except.ok
            { conversationID := env.newUUID
              message := req.message
              response := response
              contextUsed :=
                { totalConversations := searchRes.results.length
                  topScore := maxScore }
              createdAt := env.now }, some call)

/-! ## Game orchestrator (`internal/service/game_service.go`, first
revision, lines 41-149) -/

/-- Environment of a single `GenerateQuestion` / `EvaluateGameResult` run:
outcome of `ragClient.SearchConversations`, the configuration values the
functions read, the generated UUID and the wall clock. -/
structure GameEnv where
  searchConversations : Except String (List RAGConversationSearchResult)
  minConversationsForGame : ℕ
  questionCacheTTL : ℤ
  newUUID : String
  now : ℤ

/-- The dummy search results substituted by `GenerateQuestion` (lines
46-57) when `ragClient.SearchConversations` errors: one conversation
timestamped 24 hours ago with score `0.9`. -/
def dummySearchResults (now : ℤ) : List RAGConversationSearchResult :=
  [{ conversationID := "test-conv-1"
     score := 9/10
     timestamp := now - msPerDay
     messages :=
       [{ role := "user", content := "Go 언어에 대해 알려줘" },
        { role := "assistant", content := "Go는 Google에서 개발한 프로그래밍 언어입니다." }] }]

/-- `GameService.selectConversation` (lines 180-188): the zero value for an
empty list, otherwise the first result. -/
def selectConversation (searchResults : List RAGConversationSearchResult)
    (_difficulty : String) : RAGConversationSearchResult :=
  match searchResults with
  | [] => { conversationID := "", score := 0, timestamp := 0, messages := [] }
  | r :: _ => r

/-- `GameService.extractTopic` (lines 190-200).  (Go truncates `content[:50]`
by bytes; character-based `String.take` stands in for it - no claim depends
on the truncation.) -/
def extractTopic (conv : RAGConversationSearchResult) : String :=
  match conv.messages with
  | [] => "일반"
  | m :: _ => if m.content.length > 50 then m.content.take 50 else m.content

/-- `int(time.Since(conv.Timestamp).Hours() / 24)` as it appears in the
question metadata. -/
def daysSinceConversation (now ts : ℤ) : ℤ :=
  (now - ts) / msPerDay

/-- `GameService.generateFillInTheBlankQuestion` (first revision, lines
202-227): builds a stubbed question locally - the comment in the source
notes "Call OpenAI to generate question (simplified for now)"; no
completion-provider call occurs. -/
def generateFillInTheBlankQuestion (now : ℤ) (qID : String)
    (conv : RAGConversationSearchResult) (topic : String) :
    FillInTheBlankQuestionResponse :=
  { questionID := qID
    questionType := "fill_in_blank"
    question := "생성된 빈칸 채우기 문제입니다: ___에 대해 이야기했습니다."
    options := []
    correctAnswer := "정답"
    acceptableAnswers := ["유사답안1", "유사답안2"]
    basedOnConversation := conv.conversationID
    difficulty := "medium"
    metadata :=
      { topic := topic
        memoryScore := conv.score
        daysSinceConversation := daysSinceConversation now conv.timestamp } }

/-- `GameService.generateMultipleChoiceQuestion` (first revision, lines
229-259): likewise a local stub, no completion-provider call. -/
def generateMultipleChoiceQuestion (now : ℤ) (qID : String)
    (conv : RAGConversationSearchResult) (topic : String) :
    MultipleChoiceQuestionResponse :=
  { questionID := qID
    questionType := "multiple_choice"
    question := "생성된 4지선다 문제입니다."
    options :=
      [{ id := "A", text := "선지1" }, { id := "B", text := "선지2" },
       { id := "C", text := "선지3" }, { id := "D", text := "선지4" }]
    correctAnswer := "B"
    basedOnConversation := conv.conversationID
    difficulty := "medium"
    metadata :=
      { topic := topic
        memoryScore := conv.score
        daysSinceConversation := daysSinceConversation now conv.timestamp } }

/-- `GameService.GenerateQuestion` (first revision, lines 41-91).  On a
search error the dummy data is substituted; fewer results than
`cfg.MinConversationsForGame` abort with `insufficient_data`; otherwise the
question is generated (locally, in this revision) and cached.  Returns the
Go `(interface{}, error)` result, the question cache after the call, and
whether a completion-provider call was made (constantly `false` on this
path: the two generators above are local stubs). -/
def GenerateQuestion (env : GameEnv) (c : Cache) (req : GameQuestionRequest) :
    Except String QuestionPayload × Cache × Bool :=
  let searchResults :=
    match env.searchConversations with
    | Except.ok rs => rs
    | Except.error _ => dummySearchResults env.now
  if searchResults.length < env.minConversationsForGame then
    (Except.error
      ("insufficient_data: need at least " ++ toString env.minConversationsForGame ++
        " conversations, got " ++ toString searchResults.length), c, false)
  else
    let difficulty := determineDifficulty req.difficultyHint searchResults env.now
    let selectedConv := selectConversation searchResults difficulty
    let topic := extractTopic selectedConv
    if req.questionType = "fill_in_blank" then
      let resp := QuestionPayload.fillInBlank
        (generateFillInTheBlankQuestion env.now env.newUUID selectedConv topic)
      (Except.ok resp, cacheQuestion c env.now env.questionCacheTTL resp, false)
    else if req.questionType = "multiple_choice" then
      let resp := QuestionPayload.multipleChoice
        (generateMultipleChoiceQuestion env.now env.newUUID selectedConv topic)
      (Except.ok resp, cacheQuestion c env.now env.questionCacheTTL resp, false)
    else
      (Except.error ("invalid_question_type: " ++ req.questionType), c, false)

/-- `GameService.EvaluateGameResult` (first revision, lines 94-149): always
returns `(response, nil)` - a failing `SaveConversation` is only printed as
a warning (`ragSaveResult` is accepted to represent that outcome and is
deliberately unused, exactly as the source ignores it for the return
value).  On a cache miss the topic stays at the default `"일반"`. -/
def EvaluateGameResult (weights : ℚ × ℚ × ℚ) (c : Cache) (now : ℤ)
    (evalID : String) (_ragSaveResult : Except String String)
    (req : GameResultRequest) : Except String GameResultResponse :=
  let retentionScore := calculateRetentionScore weights req
  let confidence := determineConfidence retentionScore
  let recommendation := getRecommendation retentionScore confidence
  let topic :=
    match (getCachedQuestion c now req.questionID).2 with
    | none => "일반"
    | some cachedQuestion => cachedQuestion.topic
  let nextDifficulty := suggestNextDifficulty retentionScore
  Except.ok
    { resultID := evalID
      memoryEvaluation :=
        { topic := topic
          retentionScore := retentionScore
          confidence := confidence
          recommendation := recommendation }
      nextQuestionSuggestion :=
        { difficulty := nextDifficulty
          topicPreference := "새로운 주제 추천" }
      storedAt := now }

/-! ## Shared concrete fixtures for witnesses and counterexamples -/

/-- A stored question whose expiry instant is `100`. -/
def entryAt100 : StoredQuestion :=
  { questionID := "q1"
    userID := ""
    questionType := ""
    question := ""
    correctAnswer := ""
    basedOnConversation := ""
    difficulty := ""
    topic := ""
    generatedAt := 0
    expiresAt := 100 }

/-- A one-entry cache table holding `entryAt100` under key `"q1"`. -/
def cacheWithEntry100 : Cache :=
  fun k => if k = "q1" then some entryAt100 else none

/-- A concrete fill-in-the-blank payload accepted by the cache type switch. -/
def fibPayload : QuestionPayload :=
  QuestionPayload.fillInBlank
    { questionID := "q1"
      questionType := "fill_in_blank"
      question := "x"
      options := []
      correctAnswer := "a"
      acceptableAnswers := []
      basedOnConversation := ""
      difficulty := "medium"
      metadata := { topic := "t", memoryScore := 0, daysSinceConversation := 0 } }

/-! ## C3 - cache round-trip and virtual-time expiry -/

/-- Characterization of `getCachedQuestion`: the table is returned
unchanged, paired with the expiry-filtered lookup. -/
theorem getCachedQuestion_eq (c : Cache) (now : ℤ) (qID : String) :
    getCachedQuestion c now qID =
      (c, match c qID with
          | none => none
          | some q => if q.expiresAt < now then none else some q) := by
  unfold getCachedQuestion
  cases c qID with
  | none => rfl
  | some q => by_cases h : q.expiresAt < now <;> simp [h]

/-- The lookup component of `getCachedQuestion` on a present key. -/
theorem getCachedQuestion_snd_eq (c : Cache) (now : ℤ) (qID : String)
    (q : StoredQuestion) (hq : c qID = some q) :
    (getCachedQuestion c now qID).2 =
      (if q.expiresAt < now then none else some q) := by
  rw [getCachedQuestion_eq]
  show (match c qID with
    | none => none
    | some q2 => if q2.expiresAt < now then none else some q2) = _
  rw [hq]

/-- One reaper pass, evaluated at a present key. -/
theorem cleanupCachePass_lookup (c : Cache) (now : ℤ) (k : String)
    (q : StoredQuestion) (hk : c k = some q) :
    cleanupCachePass c now k = (if q.expiresAt < now then none else some q) := by
  show (match c k with
    | none => none
    | some q2 => if q2.expiresAt < now then none else some q2) = _
  rw [hk]

/-- Looking up the key just inserted yields the inserted entry, filtered by
the expiry test. -/
theorem getCachedQuestion_insert_self (c : Cache) (k : String)
    (v : StoredQuestion) (now : ℤ) :
    getCachedQuestion (cacheInsert c k v) now k =
      (cacheInsert c k v, if v.expiresAt < now then none else some v) := by
  rw [getCachedQuestion_eq,
    show cacheInsert c k v k = some v from by simp [cacheInsert]]

/-- C3: for a question accepted by the cache (its type-switch yields an ID)
and a nonnegative TTL, `cacheQuestion` immediately followed by
`getCachedQuestion` at the same instant returns the stored entry stamped
`expiresAt = now + TTL`; and at any instant strictly past that expiry the
lookup returns `none`, with no reaper pass in between. -/
theorem cacheQuestion_roundtrip_and_virtual_expiry
    (c : Cache) (now ttl later : ℤ) (q : QuestionPayload) (qID : String)
    (hq : payloadQuestionID q = some qID) (httl : 0 ≤ ttl)
    (hlater : now + ttl < later) :
    (getCachedQuestion (cacheQuestion c now ttl q) now qID).2 =
      some { questionID := qID
             userID := ""
             questionType := ""
             question := ""
             correctAnswer := ""
             basedOnConversation := ""
             difficulty := ""
             topic := ""
             generatedAt := 0
             expiresAt := now + ttl } ∧
    (getCachedQuestion (cacheQuestion c now ttl q) later qID).2 = none := by
  unfold cacheQuestion
  rw [hq]
  constructor
  · rw [getCachedQuestion_insert_self]
    exact if_neg (show ¬ (now + ttl < now) by omega)
  · rw [getCachedQuestion_insert_self]
    exact if_pos (show now + ttl < later by omega)

/-- Witness for C3 at a concrete cache, payload and TTL. -/
theorem cacheQuestion_roundtrip_and_virtual_expiry_witness :
    payloadQuestionID fibPayload = some "q1" ∧ (0 : ℤ) ≤ 300000 ∧
      (0 : ℤ) + 300000 < 300001 ∧
    ((getCachedQuestion (cacheQuestion emptyCache 0 300000 fibPayload) 0 "q1").2 =
      some { questionID := "q1"
             userID := ""
             questionType := ""
             question := ""
             correctAnswer := ""
             basedOnConversation := ""
             difficulty := ""
             topic := ""
             generatedAt := 0
             expiresAt := 0 + 300000 } ∧
     (getCachedQuestion (cacheQuestion emptyCache 0 300000 fibPayload) 300001 "q1").2 =
      none) :=
  ⟨rfl, by norm_num, by norm_num,
    cacheQuestion_roundtrip_and_virtual_expiry emptyCache 0 300000 300001 fibPayload "q1"
      rfl (by norm_num) (by norm_num)⟩

/-! ## C4 - expiry boundary of `getCachedQuestion` -/

/-- C4 counterexample: the claim says the lookup is a miss at the instant
`now = ExpiresAt`; the code uses the strict `time.Now().After(q.ExpiresAt)`,
so with an entry present whose `expiresAt` is exactly `100`, the lookup at
`now = 100` is a hit, refuting the claim at this concrete input. -/
theorem getCachedQuestion_hit_at_expiry_instant :
    cacheWithEntry100 "q1" = some entryAt100 ∧
    entryAt100.expiresAt = 100 ∧
    (getCachedQuestion cacheWithEntry100 100 "q1").2 = some entryAt100 :=
  ⟨rfl, rfl, rfl⟩

/-- C4 (amended): `getCachedQuestion` returns the cached entry iff an entry
with that key is present and `now ≤ ExpiresAt`; otherwise it returns `none`
even when the physical entry is still in the table - in particular, at the
instant `now = ExpiresAt` the lookup is still a hit, and it is a miss
exactly once `now` is strictly past `ExpiresAt`. -/
theorem getCachedQuestion_boundary (c : Cache) (now : ℤ) (qID : String)
    (q : StoredQuestion) :
    ((getCachedQuestion c now qID).2 = some q ↔ c qID = some q ∧ now ≤ q.expiresAt) ∧
    ((getCachedQuestion c now qID).2 = none ↔
      ∀ q2, c qID = some q2 → q2.expiresAt < now) := by
  rw [getCachedQuestion_eq]
  cases h : c qID with
  | none =>
      refine ⟨⟨fun hc => Option.noConfusion hc, fun hc => Option.noConfusion hc.1⟩,
              ⟨fun _ q2 hq2 => Option.noConfusion hq2, fun _ => rfl⟩⟩
  | some q2 =>
      by_cases hlt : q2.expiresAt < now
      · refine ⟨⟨?_, ?_⟩, ⟨?_, ?_⟩⟩
        · intro hc
          have hc2 : (if q2.expiresAt < now then (none : Option StoredQuestion)
              else some q2) = some q := hc
          rw [if_pos hlt] at hc2
          exact Option.noConfusion hc2
        · rintro ⟨hq, hle⟩
          injection hq with h2
          rw [← h2] at hle
          exact absurd hle (by omega)
        · intro _ q3 hq3
          injection hq3 with h3
          rw [← h3]
          exact hlt
        · intro _
          show (if q2.expiresAt < now then (none : Option StoredQuestion)
            else some q2) = none
          rw [if_pos hlt]
      · refine ⟨⟨?_, ?_⟩, ⟨?_, ?_⟩⟩
        · intro hc
          have hc2 : (if q2.expiresAt < now then (none : Option StoredQuestion)
              else some q2) = some q := hc
          rw [if_neg hlt] at hc2
          refine ⟨hc2, ?_⟩
          injection hc2 with h2
          rw [← h2]
          omega
        · rintro ⟨hq, _⟩
          show (if q2.expiresAt < now then (none : Option StoredQuestion)
            else some q2) = some q
          rw [if_neg hlt]
          exact hq
        · intro hc
          have hc2 : (if q2.expiresAt < now then (none : Option StoredQuestion)
              else some q2) = none := hc
          rw [if_neg hlt] at hc2
          exact Option.noConfusion hc2
        · intro hall
          exact absurd (hall q2 rfl) hlt

/-- Witness for the amended C4 at a concrete cache: a hit strictly before
expiry and a hit exactly at expiry. -/
theorem getCachedQuestion_boundary_witness :
    (getCachedQuestion cacheWithEntry100 50 "q1").2 = some entryAt100 ∧
    (getCachedQuestion cacheWithEntry100 100 "q1").2 = some entryAt100 :=
  ⟨(getCachedQuestion_boundary cacheWithEntry100 50 "q1" entryAt100).1.mpr
      ⟨rfl, by decide⟩,
   (getCachedQuestion_boundary cacheWithEntry100 100 "q1" entryAt100).1.mpr
      ⟨rfl, by decide⟩⟩

/-! ## C5 - reaper pass boundary -/

/-- C5 counterexample: the claim says one reaper pass at time `now` removes
every entry with `ExpiresAt ≤ now`; the code deletes only on the strict
`now.After(q.ExpiresAt)`, so an entry with `ExpiresAt = now = 100` survives
the pass, refuting the claim at this concrete input. -/
theorem cleanupCachePass_keeps_boundary_entry :
    cacheWithEntry100 "q1" = some entryAt100 ∧
    entryAt100.expiresAt ≤ 100 ∧
    cleanupCachePass cacheWithEntry100 100 "q1" = some entryAt100 :=
  ⟨rfl, by decide, rfl⟩

/-- C5 (amended): one reaper pass at time `now` removes exactly the entries
with `ExpiresAt < now`: every such entry is removed, no entry with
`now ≤ ExpiresAt` is removed, and after the pass no entry with
`ExpiresAt < now` remains in the table. -/
theorem cleanupCachePass_removes_exactly_expired (c : Cache) (now : ℤ) :
    (∀ k q, c k = some q → q.expiresAt < now → cleanupCachePass c now k = none) ∧
    (∀ k q, c k = some q → now ≤ q.expiresAt → cleanupCachePass c now k = some q) ∧
    (∀ k q, cleanupCachePass c now k = some q → now ≤ q.expiresAt) := by
  refine ⟨?_, ?_, ?_⟩
  · intro k q hk hlt
    rw [cleanupCachePass_lookup c now k q hk, if_pos hlt]
  · intro k q hk hle
    rw [cleanupCachePass_lookup c now k q hk, if_neg (show ¬ q.expiresAt < now by omega)]
  · intro k q hk
    cases h : c k with
    | none =>
        have he : cleanupCachePass c now k = none := by
          show (match c k with
            | none => none
            | some q2 => if q2.expiresAt < now then none else some q2) = none
          rw [h]
        rw [he] at hk
        exact Option.noConfusion hk
    | some q2 =>
        rw [cleanupCachePass_lookup c now k q2 h] at hk
        by_cases hlt : q2.expiresAt < now
        · rw [if_pos hlt] at hk
          exact Option.noConfusion hk
        · rw [if_neg hlt] at hk
          injection hk with h3
          rw [← h3]
          omega

/-- Witness for the amended C5 at a concrete cache: the entry expiring at
`100` is removed by a pass at `200` and kept by a pass at `100`. -/
theorem cleanupCachePass_removes_exactly_expired_witness :
    cleanupCachePass cacheWithEntry100 200 "q1" = none ∧
    cleanupCachePass cacheWithEntry100 100 "q1" = some entryAt100 :=
  ⟨(cleanupCachePass_removes_exactly_expired cacheWithEntry100 200).1 "q1" entryAt100
      rfl (by decide),
   (cleanupCachePass_removes_exactly_expired cacheWithEntry100 100).2.1 "q1" entryAt100
      rfl (by decide)⟩

/-! ## C10 - lookups do not mutate the cache -/

/-- C10: `getCachedQuestion` leaves the table exactly unchanged in every
case (it only reads under `RLock`); in particular a physically present but
expired entry is reported as a miss yet persists in the table, and it is a
reaper pass (`cleanupCachePass`) that removes it. -/
theorem getCachedQuestion_pure_reader (c : Cache) (now : ℤ) (qID : String) :
    (getCachedQuestion c now qID).1 = c ∧
    (∀ q, c qID = some q → q.expiresAt < now →
      (getCachedQuestion c now qID).2 = none ∧
      (getCachedQuestion c now qID).1 qID = some q ∧
      cleanupCachePass c now qID = none) := by
  have hfst : (getCachedQuestion c now qID).1 = c := by
    rw [getCachedQuestion_eq]
  refine ⟨hfst, ?_⟩
  intro q hq hlt
  refine ⟨?_, ?_, ?_⟩
  · rw [getCachedQuestion_snd_eq c now qID q hq, if_pos hlt]
  · rw [hfst]
    exact hq
  · rw [cleanupCachePass_lookup c now qID q hq, if_pos hlt]

/-- Witness for C10 at a concrete cache with an expired entry. -/
theorem getCachedQuestion_pure_reader_witness :
    (getCachedQuestion cacheWithEntry100 200 "q1").1 = cacheWithEntry100 ∧
    ((getCachedQuestion cacheWithEntry100 200 "q1").2 = none ∧
     (getCachedQuestion cacheWithEntry100 200 "q1").1 "q1" = some entryAt100 ∧
     cleanupCachePass cacheWithEntry100 200 "q1" = none) :=
  ⟨(getCachedQuestion_pure_reader cacheWithEntry100 200 "q1").1,
   (getCachedQuestion_pure_reader cacheWithEntry100 200 "q1").2 entryAt100 rfl (by decide)⟩

/-! ## C6 - retention score range -/

/-- Bounds of the response-time component for nonnegative response times. -/
theorem timeScore_bounds (t : ℤ) (ht : 0 ≤ t) :
    0 ≤ timeScore t ∧ timeScore t ≤ 1 := by
  unfold timeScore ResponseTimeThreshold
  split_ifs with h
  · norm_num
  · push_neg at h
    constructor
    · apply div_nonneg _ (by norm_num)
      have : (0 : ℤ) ≤ 5000 - t := by omega
      exact_mod_cast this
    · rw [div_le_one (by norm_num)]
      have : (5000 - t : ℤ) ≤ 5000 := by omega
      exact_mod_cast this

/-- C6 counterexample: `ResponseTimeMs` is not validated anywhere, and for a
negative response time the linear time component exceeds `1`; with the
configured default weights `(0.5, 0.3, 0.2)` (which sum to `1`), a correct
answer reported with `responseTimeMs = -5000` yields a retention score of
`1.3`, outside `[0, 1]`. -/
theorem calculateRetentionScore_exceeds_one :
    ((1 : ℚ)/2 + 3/10 + 1/5 = 1) ∧
    calculateRetentionScore (1/2, 3/10, 1/5)
      { userID := "u"
        questionID := "q"
        userAnswer := "a"
        isCorrect := true
        responseTimeMs := -5000
        gameSessionID := "" } = 13/10 ∧
    ¬ calculateRetentionScore (1/2, 3/10, 1/5)
      { userID := "u"
        questionID := "q"
        userAnswer := "a"
        isCorrect := true
        responseTimeMs := -5000
        gameSessionID := "" } ≤ 1 := by
  refine ⟨by norm_num, ?_, ?_⟩ <;>
    norm_num [calculateRetentionScore, timeScore, ResponseTimeThreshold]

/-- C6 (amended): for every weight triple with nonnegative components
summing to `1.0` and every game-result request with a nonnegative response
time, `calculateRetentionScore` (a pure function of the correctness flag,
the response time and the weights) yields a value in the closed interval
`[0, 1]`. -/
theorem calculateRetentionScore_range (w : ℚ × ℚ × ℚ) (req : GameResultRequest)
    (h0 : 0 ≤ w.1) (h1 : 0 ≤ w.2.1) (h2 : 0 ≤ w.2.2)
    (hsum : w.1 + w.2.1 + w.2.2 = 1) (ht : 0 ≤ req.responseTimeMs) :
    0 ≤ calculateRetentionScore w req ∧ calculateRetentionScore w req ≤ 1 := by
  obtain ⟨hts0, hts1⟩ := timeScore_bounds req.responseTimeMs ht
  show 0 ≤ w.1 * (if req.isCorrect then (1 : ℚ) else 0) +
        w.2.1 * timeScore req.responseTimeMs + w.2.2 * 1 ∧
      w.1 * (if req.isCorrect then (1 : ℚ) else 0) +
        w.2.1 * timeScore req.responseTimeMs + w.2.2 * 1 ≤ 1
  have hc0 : (0 : ℚ) ≤ (if req.isCorrect then (1 : ℚ) else 0) := by
    split_ifs <;> norm_num
  have hc1 : (if req.isCorrect then (1 : ℚ) else 0) ≤ 1 := by
    split_ifs <;> norm_num
  constructor
  · have := mul_nonneg h0 hc0
    have := mul_nonneg h1 hts0
    have := mul_nonneg h2 (by norm_num : (0 : ℚ) ≤ 1)
    linarith
  · have := mul_le_of_le_one_right h0 hc1
    have := mul_le_of_le_one_right h1 hts1
    have : w.2.2 * 1 = w.2.2 := mul_one w.2.2
    linarith

/-- Witness for the amended C6 at the default weights and a 1-second
response. -/
theorem calculateRetentionScore_range_witness :
    ((0 : ℚ) ≤ 1/2 ∧ (0 : ℚ) ≤ 3/10 ∧ (0 : ℚ) ≤ 1/5 ∧
     (1 : ℚ)/2 + 3/10 + 1/5 = 1 ∧
     (0 : ℤ) ≤ 1000) ∧
    (0 ≤ calculateRetentionScore (1/2, 3/10, 1/5)
        { userID := "u"
          questionID := "q"
          userAnswer := "a"
          isCorrect := true
          responseTimeMs := 1000
          gameSessionID := "" } ∧
     calculateRetentionScore (1/2, 3/10, 1/5)
        { userID := "u"
          questionID := "q"
          userAnswer := "a"
          isCorrect := true
          responseTimeMs := 1000
          gameSessionID := "" } ≤ 1) :=
  ⟨⟨by norm_num, by norm_num, by norm_num, by norm_num, by norm_num⟩,
   calculateRetentionScore_range (1/2, 3/10, 1/5)
      { userID := "u"
        questionID := "q"
        userAnswer := "a"
        isCorrect := true
        responseTimeMs := 1000
        gameSessionID := "" }
      (by norm_num) (by norm_num) (by norm_num) (by norm_num) (by norm_num)⟩

/-! ## C7 - exact endpoints of the time component -/

/-- C7: for every weight triple summing to `1.0`, the time-score component
of `calculateRetentionScore` (the factor multiplied by `weights[1]`, as the
accompanying decomposition shows) is exactly `0` whenever
`responseTimeMs ≥ 5000` - including exactly `5000` - and exactly `1` at
`responseTimeMs = 0`. -/
theorem timeScore_endpoints (w : ℚ × ℚ × ℚ)
    (hsum : w.1 + w.2.1 + w.2.2 = 1) (t : ℤ) (req : GameResultRequest) :
    calculateRetentionScore w req =
      w.1 * (if req.isCorrect then (1 : ℚ) else 0) +
        w.2.1 * timeScore req.responseTimeMs + w.2.2 * 1 ∧
    (ResponseTimeThreshold ≤ t → timeScore t = 0) ∧
    timeScore 0 = 1 := by
  refine ⟨rfl, ?_, ?_⟩
  · intro h
    unfold timeScore
    rcases lt_or_eq_of_le h with hlt | heq
    · rw [if_pos hlt]
    · rw [if_neg (by omega), ← heq]
      norm_num
  · unfold timeScore ResponseTimeThreshold
    norm_num

/-- Witness for C7 at the default weights, `t = 5000` and a concrete
request. -/
theorem timeScore_endpoints_witness :
    ((1 : ℚ)/2 + 3/10 + 1/5 = 1) ∧
    (calculateRetentionScore (1/2, 3/10, 1/5)
        { userID := "u"
          questionID := "q"
          userAnswer := "a"
          isCorrect := false
          responseTimeMs := 5000
          gameSessionID := "" } =
      (1 : ℚ)/2 * (if false then (1 : ℚ) else 0) + 3/10 * timeScore 5000 + 1/5 * 1 ∧
     (ResponseTimeThreshold ≤ 5000 → timeScore 5000 = 0) ∧
     timeScore 0 = 1) :=
  ⟨by norm_num,
   timeScore_endpoints (1/2, 3/10, 1/5) (by norm_num) 5000
      { userID := "u"
        questionID := "q"
        userAnswer := "a"
        isCorrect := false
        responseTimeMs := 5000
        gameSessionID := "" }⟩

/-! ## C8 - difficulty selection -/

/-- C8: `determineDifficulty` returns the hint when it is one of
`{easy, medium, hard}`; otherwise it returns `easy` when the count of
results younger than 24 hours exceeds half the list (`2 * recent > length`,
which for Go integer division is exactly `recent > length/2`) and also when
the list is empty, `medium` when at least one but at most half are recent,
and `hard` when none are (on a nonempty list). -/
theorem determineDifficulty_spec (hint : String)
    (rs : List RAGConversationSearchResult) (now : ℤ) :
    ((hint = "easy" ∨ hint = "medium" ∨ hint = "hard") →
      determineDifficulty hint rs now = hint) ∧
    (¬ (hint = "easy" ∨ hint = "medium" ∨ hint = "hard") →
      (rs = [] → determineDifficulty hint rs now = "easy") ∧
      (rs.length < 2 * recentCount now rs → determineDifficulty hint rs now = "easy") ∧
      (0 < recentCount now rs ∧ 2 * recentCount now rs ≤ rs.length →
        determineDifficulty hint rs now = "medium") ∧
      (rs ≠ [] ∧ recentCount now rs = 0 →
        determineDifficulty hint rs now = "hard")) := by
  have hrc_le : recentCount now rs ≤ rs.length := List.countP_le_length _
  constructor
  · intro h
    have hne : hint ≠ "" := by
      rcases h with h | h | h <;> rw [h] <;> decide
    unfold determineDifficulty
    rw [if_pos ⟨hne, h⟩]
  · intro h
    have hcond : ¬ (hint ≠ "" ∧ (hint = "easy" ∨ hint = "medium" ∨ hint = "hard")) := by
      intro hc
      exact h hc.2
    refine ⟨?_, ?_, ?_, ?_⟩
    · intro hnil
      unfold determineDifficulty
      rw [if_neg hcond, if_pos (by rw [hnil]; rfl)]
    · intro hmaj
      have hlen : rs.length ≠ 0 := by omega
      unfold determineDifficulty
      rw [if_neg hcond, if_neg hlen,
        if_pos ((Nat.div_lt_iff_lt_mul (by norm_num)).mpr (by omega))]
    · rintro ⟨hpos, hhalf⟩
      have hlen : rs.length ≠ 0 := by omega
      unfold determineDifficulty
      rw [if_neg hcond, if_neg hlen,
        if_neg (by
          intro hdiv
          have := (Nat.div_lt_iff_lt_mul (k := 2) (by norm_num)).mp hdiv
          omega),
        if_pos hpos]
    · rintro ⟨hnil, hzero⟩
      have hlen : rs.length ≠ 0 := by
        intro h0
        exact hnil (List.length_eq_zero.mp h0)
      unfold determineDifficulty
      rw [if_neg hcond, if_neg hlen,
        if_neg (by
          intro hdiv
          have := (Nat.div_lt_iff_lt_mul (k := 2) (by norm_num)).mp hdiv
          omega),
        if_neg (by omega)]

/-- A concrete search result with a given timestamp, used for the C8
scenarios. -/
def resultAt (ts : ℤ) : RAGConversationSearchResult :=
  { conversationID := "c", score := 0, timestamp := ts, messages := [] }

/-- Witness for C8: the claim's two concrete scenarios, with the clock at
`100000000` ms.  In the first list 3 of 4 results are younger than 24
hours, yielding `easy`; in the second 0 of 4 are, yielding `hard`; and a
valid hint wins outright. -/
theorem determineDifficulty_spec_witness :
    determineDifficulty ""
      [resultAt 99999000, resultAt 99998000, resultAt 99997000, resultAt 0]
      100000000 = "easy" ∧
    determineDifficulty "" [resultAt 0, resultAt 1, resultAt 2, resultAt 3]
      100000000 = "hard" ∧
    determineDifficulty "hard"
      [resultAt 99999000, resultAt 99998000, resultAt 99997000, resultAt 0]
      100000000 = "hard" :=
  ⟨((determineDifficulty_spec ""
      [resultAt 99999000, resultAt 99998000, resultAt 99997000, resultAt 0]
      100000000).2 (by decide)).2.1 (by decide),
   ((determineDifficulty_spec "" [resultAt 0, resultAt 1, resultAt 2, resultAt 3]
      100000000).2 (by decide)).2.2.2 ⟨by decide, by decide⟩,
   (determineDifficulty_spec "hard"
      [resultAt 99999000, resultAt 99998000, resultAt 99997000, resultAt 0]
      100000000).1 (by decide)⟩

/-! ## C9 - cache miss during evaluation is never an error -/

/-- C9: `EvaluateGameResult` always returns a successful response - for
every request, cache state, clock, weight triple and RAG-save outcome -
and when the question-ID lookup misses (absent or expired entry) the
response's `MemoryEvaluation.Topic` is the fixed default `"일반"` rather
than the call failing. -/
theorem evaluateGameResult_tolerates_cache_miss (w : ℚ × ℚ × ℚ) (c : Cache)
    (now : ℤ) (evalID : String) (save : Except String String)
    (req : GameResultRequest) :
    ∃ resp, EvaluateGameResult w c now evalID save req = Except.ok resp ∧
      ((getCachedQuestion c now req.questionID).2 = none →
        resp.memoryEvaluation.topic = "일반") := by
  unfold EvaluateGameResult
  refine ⟨_, rfl, fun h => ?_⟩
  simp only [h]

/-- Witness for C9 on the empty cache (a guaranteed miss). -/
theorem evaluateGameResult_tolerates_cache_miss_witness :
    ∃ resp, EvaluateGameResult (1/2, 3/10, 1/5) emptyCache 0 "r1"
        (Except.error "rag down")
        { userID := "u"
          questionID := "q-missing"
          userAnswer := "a"
          isCorrect := false
          responseTimeMs := 1000
          gameSessionID := "" } = Except.ok resp ∧
      ((getCachedQuestion emptyCache 0 "q-missing").2 = none →
        resp.memoryEvaluation.topic = "일반") :=
  evaluateGameResult_tolerates_cache_miss (1/2, 3/10, 1/5) emptyCache 0 "r1"
    (Except.error "rag down")
    { userID := "u"
      questionID := "q-missing"
      userAnswer := "a"
      isCorrect := false
      responseTimeMs := 1000
      gameSessionID := "" }

/-! ## C1 - partial-failure tolerance of the chat fan-out -/

/-- C1: with the required conversation search succeeding and the completion
provider available, the failure of either optional lookup (profile or
incorrect attempts) does not fail `ProcessChat`: the call returns a
successful response whose context usage is computed from the search results
alone, and the completion call receives `none` for the failed lookup while
the other lookup's contribution is exactly the value computed from its own
fetch result, unchanged by the failure. -/
theorem processChat_tolerates_optional_failure (env : ChatEnv) (req : ChatRequest)
    (hs : env.search.err = none)
    (hllm : ∀ call, ∃ t, env.generateChatResponseWithProfile call = Except.ok t) :
    (env.profile.err ≠ none →
      (ProcessChat env req).2 =
        some { userMessage := req.message
               contextMessages := extractContextMessages env.search.results
               profileInfo := none
               incorrectAttempts :=
                 if env.attempts.err = none then env.attempts.attempts else none } ∧
      ∃ t, (ProcessChat env req).1 = Except.ok
        { conversationID := env.newUUID
          message := req.message
          response := t
          contextUsed :=
            { totalConversations := env.search.results.length
              topScore := extractMaxScore env.search.results }
          createdAt := env.now }) ∧
    (env.attempts.err ≠ none →
      (ProcessChat env req).2 =
        some { userMessage := req.message
               contextMessages := extractContextMessages env.search.results
               profileInfo :=
                 if env.profile.err = none then env.profile.profile else none
               incorrectAttempts := none } ∧
      ∃ t, (ProcessChat env req).1 = Except.ok
        { conversationID := env.newUUID
          message := req.message
          response := t
          contextUsed :=
            { totalConversations := env.search.results.length
              topScore := extractMaxScore env.search.results }
          createdAt := env.now }) := by
  constructor
  · intro hp
    obtain ⟨t, ht⟩ := hllm
      { userMessage := req.message
        contextMessages := extractContextMessages env.search.results
        profileInfo := none
        incorrectAttempts :=
          if env.attempts.err = none then env.attempts.attempts else none }
    refine ⟨?_, t, ?_⟩ <;>
      · simp only [ProcessChat, hs]
        rw [if_neg hp]
        rw [ht]
  · intro ha
    obtain ⟨t, ht⟩ := hllm
      { userMessage := req.message
        contextMessages := extractContextMessages env.search.results
        profileInfo :=
          if env.profile.err = none then env.profile.profile else none
        incorrectAttempts := none }
    refine ⟨?_, t, ?_⟩ <;>
      · simp only [ProcessChat, hs]
        rw [if_neg ha]
        rw [ht]

/-- Concrete incorrect-attempts payload for the C1 witness. -/
def attemptsFixture : IncorrectQuizAttemptsResponse :=
  { items := [], total := 0, userID := "u1" }

/-- Concrete chat environment for the C1 witness: search succeeds (empty
result list), the profile lookup fails, the attempts lookup succeeds, and
the completion provider answers `"reply"`. -/
def chatEnvProfileDown : ChatEnv :=
  { search := { results := [], err := none }
    profile := { profile := none, err := some "profile service down" }
    attempts := { attempts := some attemptsFixture, err := none }
    generateChatResponseWithProfile := fun _ => Except.ok "reply"
    newUUID := "uuid-1"
    now := 0 }

/-- Witness for C1 in the concrete environment where the profile lookup
fails. -/
theorem processChat_tolerates_optional_failure_witness :
    chatEnvProfileDown.search.err = none ∧
    chatEnvProfileDown.profile.err ≠ none ∧
    ((ProcessChat chatEnvProfileDown { message := "hi", userID := "u1" }).2 =
      some { userMessage := "hi"
             contextMessages :=
               extractContextMessages chatEnvProfileDown.search.results
             profileInfo := none
             incorrectAttempts :=
               if chatEnvProfileDown.attempts.err = none then
                 chatEnvProfileDown.attempts.attempts
               else none } ∧
     ∃ t, (ProcessChat chatEnvProfileDown { message := "hi", userID := "u1" }).1 =
      Except.ok
        { conversationID := chatEnvProfileDown.newUUID
          message := "hi"
          response := t
          contextUsed :=
            { totalConversations := chatEnvProfileDown.search.results.length
              topScore := extractMaxScore chatEnvProfileDown.search.results }
          createdAt := chatEnvProfileDown.now }) :=
  ⟨rfl, by simp [chatEnvProfileDown],
   (processChat_tolerates_optional_failure chatEnvProfileDown
      { message := "hi", userID := "u1" } rfl (fun _ => ⟨"reply", rfl⟩)).1
      (by simp [chatEnvProfileDown])⟩

/-! ## C2 - required-lookup failure aborts before any LLM call -/

/-- Concrete game environment for the C2 counterexample: the conversation
search fails, and the configured minimum number of conversations is `1`. -/
def gameEnvSearchDownMinOne : GameEnv :=
  { searchConversations := Except.error "rag down"
    minConversationsForGame := 1
    questionCacheTTL := 300000
    newUUID := "uuid-2"
    now := 100000000 }

/-- C2 counterexample: in the cited `GenerateQuestion` (first revision), a
failing conversation search is replaced by one dummy conversation, so with
`MinConversationsForGame = 1` (reachable via the `MIN_CONVERSATIONS_FOR_GAME`
environment variable) the call returns a successful question instead of an
error, refuting the claim that a required-search failure always surfaces as
an error. -/
theorem generateQuestion_succeeds_despite_search_error :
    gameEnvSearchDownMinOne.searchConversations = Except.error "rag down" ∧
    gameEnvSearchDownMinOne.minConversationsForGame = 1 ∧
    ∃ p, (GenerateQuestion gameEnvSearchDownMinOne emptyCache
      { userID := "u", questionType := "fill_in_blank", difficultyHint := "" }).1 =
        Except.ok p :=
  ⟨rfl, rfl, ⟨_, rfl⟩⟩

/-- C2 (amended): for every chat request whose required conversation search
fails, `ProcessChat` returns an error and makes no completion-provider
call; and for every game question request whose conversation search fails,
provided the configured minimum number of conversations is at least 2 (the
default is 5) - so that the single dummy conversation substituted on search
failure cannot satisfy the minimum - `GenerateQuestion` returns an error
and makes no completion-provider call. -/
theorem required_search_failure_aborts (env : ChatEnv) (req : ChatRequest)
    (e : String) (hs : env.search.err = some e)
    (genv : GameEnv) (c : Cache) (greq : GameQuestionRequest) (ge : String)
    (hg : genv.searchConversations = Except.error ge)
    (hmin : 2 ≤ genv.minConversationsForGame) :
    ((ProcessChat env req).1 =
        Except.error ("failed to search conversations: " ++ e) ∧
     (ProcessChat env req).2 = none) ∧
    ((∃ msg, (GenerateQuestion genv c greq).1 = Except.error msg) ∧
     (GenerateQuestion genv c greq).2.2 = false) := by
  constructor
  · constructor <;> simp only [ProcessChat, hs]
  · have hlen : (dummySearchResults genv.now).length < genv.minConversationsForGame := by
      simp only [dummySearchResults, List.length_singleton]
      omega
    constructor
    · exact ⟨"insufficient_data: need at least " ++
          toString genv.minConversationsForGame ++ " conversations, got " ++
          toString (dummySearchResults genv.now).length,
        by simp only [GenerateQuestion, hg, if_pos hlen]⟩
    · simp only [GenerateQuestion, hg, if_pos hlen]

/-- Concrete chat environment for the C2 witness: the conversation search
fails. -/
def chatEnvSearchDown : ChatEnv :=
  { search := { results := [], err := some "rag down" }
    profile := { profile := none, err := none }
    attempts := { attempts := none, err := none }
    generateChatResponseWithProfile := fun _ => Except.ok "reply"
    newUUID := "uuid-3"
    now := 0 }

/-- Concrete game environment for the C2 witness: the conversation search
fails and the minimum is the default 5. -/
def gameEnvSearchDownMinFive : GameEnv :=
  { searchConversations := Except.error "rag down"
    minConversationsForGame := 5
    questionCacheTTL := 300000
    newUUID := "uuid-4"
    now := 100000000 }

/-- Witness for the amended C2 at concrete environments. -/
theorem required_search_failure_aborts_witness :
    (chatEnvSearchDown.search.err = some "rag down" ∧
     gameEnvSearchDownMinFive.searchConversations = Except.error "rag down" ∧
     2 ≤ gameEnvSearchDownMinFive.minConversationsForGame) ∧
    (((ProcessChat chatEnvSearchDown { message := "hi", userID := "u1" }).1 =
        Except.error ("failed to search conversations: " ++ "rag down") ∧
      (ProcessChat chatEnvSearchDown { message := "hi", userID := "u1" }).2 = none) ∧
     ((∃ msg, (GenerateQuestion gameEnvSearchDownMinFive emptyCache
         { userID := "u", questionType := "fill_in_blank", difficultyHint := "" }).1 =
           Except.error msg) ∧
      (GenerateQuestion gameEnvSearchDownMinFive emptyCache
         { userID := "u", questionType := "fill_in_blank", difficultyHint := "" }).2.2 =
        false)) :=
  ⟨⟨rfl, rfl, by norm_num [gameEnvSearchDownMinFive]⟩,
   required_search_failure_aborts chatEnvSearchDown
      { message := "hi", userID := "u1" } "rag down" rfl
      gameEnvSearchDownMinFive emptyCache
      { userID := "u", questionType := "fill_in_blank", difficultyHint := "" }
      "rag down" rfl (by norm_num [gameEnvSearchDownMinFive])⟩

end Llm
